import Mathlib

/-
  Verification of the emotion-detection pipeline in src/src/App.tsx
  (the Emote component: handleImageUpload, detectEmotion, and the
  render-time ranking of emotion predictions).

  Numbers that are JS floats in the source are modelled as rationals;
  pixel coordinates and probabilities are ℚ throughout.
-/

namespace Emote

/-- Canonical emotion label order, from the emotions array in detectEmotion
(App.tsx lines 131-133). -/
def emotions : List String :=
  ["Angry", "Disgust", "Fear", "Happy", "Neutral", "Sad", "Surprised"]

/-- Embedding of App.tsx lines 137-140: predictions[0].map((prob, idx) =>
(\x7b emotion: emotions[idx], probability: prob * 100 \x7d)).  A JS index past
the end of the emotions array reads undefined, modelled by the default
label "undefined". -/
def emotionResults (raw : List ℚ) : List (String × ℚ) :=
  (List.range raw.length).map
    (fun i => (emotions.getD i "undefined", raw.getD i 0 * 100))

/-- Stable descending insertion for the render-time sort of App.tsx line 204:
sort((a, b) => b.probability - a.probability).  The element is placed in
front of the first entry whose probability is ≤ its own, so elements equal
in probability keep their original relative order. -/
def insertDesc (x : String × ℚ) : List (String × ℚ) → List (String × ℚ)
  | [] => [x]
  | y :: ys => if y.2 ≤ x.2 then x :: y :: ys else y :: insertDesc x ys

/-- Stable descending sort: the unique stable sort consistent with the JS
comparator (a, b) => b.probability - a.probability (JS Array sort is
stable per ES2019). -/
def sortDesc : List (String × ℚ) → List (String × ℚ)
  | [] => []
  | x :: xs => insertDesc x (sortDesc xs)

/-- Embedding of the render pipeline of App.tsx lines 202-204:
emotionPredictions.filter((\x7b probability \x7d) => probability > 0.0001)
.sort((a, b) => b.probability - a.probability), applied to the raw
classifier vector that produced emotionPredictions. -/
def rankedResults (raw : List ℚ) : List (String × ℚ) :=
  sortDesc ((emotionResults raw).filter (fun p => decide ((1 : ℚ) / 10000 < p.2)))

theorem mem_insertDesc (x a : String × ℚ) (l : List (String × ℚ)) :
    a ∈ insertDesc x l ↔ a = x ∨ a ∈ l := by
  induction l with
  | nil => simp [insertDesc]
  | cons y ys ih =>
    by_cases h : y.2 ≤ x.2
    · simp [insertDesc, h]
    · simp [insertDesc, h, ih]
      tauto

theorem mem_sortDesc (a : String × ℚ) (l : List (String × ℚ)) :
    a ∈ sortDesc l ↔ a ∈ l := by
  induction l with
  | nil => simp [sortDesc]
  | cons x xs ih => simp [sortDesc, mem_insertDesc, ih]

theorem pairwise_insertDesc (x : String × ℚ) (l : List (String × ℚ))
    (hl : l.Pairwise (fun a b => b.2 ≤ a.2)) :
    (insertDesc x l).Pairwise (fun a b => b.2 ≤ a.2) := by
  induction l with
  | nil => simp [insertDesc]
  | cons y ys ih =>
    rcases List.pairwise_cons.mp hl with ⟨hy, hys⟩
    by_cases h : y.2 ≤ x.2
    · rw [insertDesc, if_pos h]
      refine List.pairwise_cons.mpr ⟨?_, hl⟩
      intro b hb
      rcases List.mem_cons.mp hb with hb | hb
      · exact hb ▸ h
      · exact le_trans (hy b hb) h
    · rw [insertDesc, if_neg h]
      refine List.pairwise_cons.mpr ⟨?_, ih hys⟩
      intro b hb
      rcases (mem_insertDesc x b ys).mp hb with hb | hb
      · exact hb ▸ le_of_lt (lt_of_not_le h)
      · exact hy b hb

theorem pairwise_sortDesc (l : List (String × ℚ)) :
    (sortDesc l).Pairwise (fun a b => b.2 ≤ a.2) := by
  induction l with
  | nil => simp [sortDesc]
  | cons x xs ih => exact pairwise_insertDesc x (sortDesc xs) ih

theorem filter_insertDesc (c : ℚ) (x : String × ℚ) (l : List (String × ℚ)) :
    (insertDesc x l).filter (fun p => decide (p.2 = c)) =
      (x :: l).filter (fun p => decide (p.2 = c)) := by
  induction l with
  | nil => simp [insertDesc]
  | cons y ys ih =>
    by_cases h : y.2 ≤ x.2
    · rw [insertDesc, if_pos h]
    · have hxy : x.2 < y.2 := lt_of_not_le h
      rw [insertDesc, if_neg h]
      by_cases hy : y.2 = c
      · have hx : ¬ x.2 = c := by
          intro hxc
          exact ne_of_lt hxy (hxc.trans hy.symm)
        simp only [List.filter_cons, hy, hx, decide_eq_true_eq, if_pos, if_neg,
          not_false_eq_true, decide_eq_false, ih]
        simp [hx, hy]
      · by_cases hx : x.2 = c
        · simp only [List.filter_cons, decide_eq_true_eq, ih]
          simp [hx, hy]
        · simp only [List.filter_cons, decide_eq_true_eq, ih]
          simp [hx, hy]

theorem filter_sortDesc (c : ℚ) (l : List (String × ℚ)) :
    (sortDesc l).filter (fun p => decide (p.2 = c)) =
      l.filter (fun p => decide (p.2 = c)) := by
  induction l with
  | nil => simp [sortDesc]
  | cons x xs ih =>
    simp only [sortDesc]
    rw [filter_insertDesc]
    simp only [List.filter_cons]
    by_cases hx : x.2 = c <;> simp [hx, ih]

/-- C1: for every raw probability vector, the displayed ranked result
contains only entries with scaled probability strictly above 0.0001, is
monotonically non-increasing in probability, every entry is an original
entry scaled by 100 and labelled by its enumeration index, and entries of
equal probability appear in their original enumeration order (the filter,
applied before the stable sort, only removes entries and never reorders
the survivors). -/
theorem ranked_results_spec (raw : List ℚ) :
    (∀ p ∈ rankedResults raw, (1 : ℚ) / 10000 < p.2) ∧
    (rankedResults raw).Pairwise (fun a b => b.2 ≤ a.2) ∧
    (∀ p ∈ rankedResults raw, ∃ i, i < raw.length ∧
        p = (emotions.getD i "undefined", raw.getD i 0 * 100)) ∧
    (∀ c : ℚ, (rankedResults raw).filter (fun p => decide (p.2 = c)) =
        (emotionResults raw).filter
          (fun p => decide (p.2 = c) && decide ((1 : ℚ) / 10000 < p.2))) := by
  refine ⟨?_, ?_, ?_, ?_⟩
  · intro p hp
    have hp2 := (mem_sortDesc p _).mp hp
    have := List.of_mem_filter hp2
    simpa using this
  · exact pairwise_sortDesc _
  · intro p hp
    have hp2 := (mem_sortDesc p _).mp hp
    have hp3 := List.mem_of_mem_filter hp2
    simp only [emotionResults, List.mem_map, List.mem_range] at hp3
    rcases hp3 with ⟨i, hi, hpi⟩
    exact ⟨i, hi, hpi.symm⟩
  · intro c
    unfold rankedResults
    rw [filter_sortDesc, List.filter_filter]

/-- Witness for C1 at the concrete vector of C2. -/
theorem ranked_results_spec_witness :
    (∀ p ∈ rankedResults [1/100, 0, 0, 95/100, 2/100, 1/100, 1/100],
        (1 : ℚ) / 10000 < p.2) ∧
    (rankedResults [1/100, 0, 0, 95/100, 2/100, 1/100, 1/100]).Pairwise
      (fun a b => b.2 ≤ a.2) ∧
    (∀ p ∈ rankedResults [1/100, 0, 0, 95/100, 2/100, 1/100, 1/100],
        ∃ i, i < ([1/100, 0, 0, 95/100, 2/100, 1/100, 1/100] : List ℚ).length ∧
        p = (emotions.getD i "undefined",
             ([1/100, 0, 0, 95/100, 2/100, 1/100, 1/100] : List ℚ).getD i 0 * 100)) ∧
    (∀ c : ℚ,
      (rankedResults [1/100, 0, 0, 95/100, 2/100, 1/100, 1/100]).filter
          (fun p => decide (p.2 = c)) =
        (emotionResults [1/100, 0, 0, 95/100, 2/100, 1/100, 1/100]).filter
          (fun p => decide (p.2 = c) && decide ((1 : ℚ) / 10000 < p.2))) :=
  ranked_results_spec [1/100, 0, 0, 95/100, 2/100, 1/100, 1/100]

/-- C2: the concrete raw classifier vector [0.01, 0, 0, 0.95, 0.02, 0.01, 0.01]
ranks to exactly Happy 95, Neutral 2, Angry 1, Sad 1, Surprised 1, the
three-way tie among Angry, Sad and Surprised broken by enumeration order. -/
theorem ranked_results_example :
    rankedResults [1/100, 0, 0, 95/100, 2/100, 1/100, 1/100] =
      [("Happy", 95), ("Neutral", 2), ("Angry", 1), ("Sad", 1), ("Surprised", 1)] := by
  norm_num [rankedResults, emotionResults, emotions, sortDesc, insertDesc,
    List.range_succ, List.filter_cons]

/-- Square crop rectangle in source-image pixel coordinates. -/
structure CropRegion where
  x : ℚ
  y : ℚ
  width : ℚ
  height : ℚ

/-- Embedding of App.tsx lines 110-117: nosex = landmarks[2][0], nosey =
landmarks[2][1], right = landmarks[4][0], left = landmarks[5][0], length =
(left - right) / 2 + 5, and the rectangle handed to ctx.getImageData is
(nosex - length, nosey - length, 2 * length, 2 * length).  Landmark points
are (x, y) pairs; a JS read past the end of the landmark list is modelled
by the default point (0, 0). -/
def cropRegion (lm : List (ℚ × ℚ)) : CropRegion :=
  let nosex := (lm.getD 2 (0, 0)).1
  let nosey := (lm.getD 2 (0, 0)).2
  let right := (lm.getD 4 (0, 0)).1
  let left := (lm.getD 5 (0, 0)).1
  let length := (left - right) / 2 + 5
  ⟨nosex - length, nosey - length, 2 * length, 2 * length⟩

/-- C3: for every landmark set with at least 6 points and P_l.x > P_r.x,
the derived crop region is the square of side 2 * half centred so that its
top-left corner is (P_n.x - half, P_n.y - half) with
half = (P_l.x - P_r.x) / 2 + 5, hence width equals height and both are
positive. -/
theorem crop_region_spec (lm : List (ℚ × ℚ)) (h6 : 6 ≤ lm.length)
    (hlr : (lm.getD 4 (0, 0)).1 < (lm.getD 5 (0, 0)).1) :
    (∃ half : ℚ,
        half = ((lm.getD 5 (0, 0)).1 - (lm.getD 4 (0, 0)).1) / 2 + 5 ∧
        cropRegion lm =
          ⟨(lm.getD 2 (0, 0)).1 - half, (lm.getD 2 (0, 0)).2 - half,
            2 * half, 2 * half⟩) ∧
    (cropRegion lm).width = (cropRegion lm).height ∧
    0 < (cropRegion lm).width := by
  refine ⟨⟨((lm.getD 5 (0, 0)).1 - (lm.getD 4 (0, 0)).1) / 2 + 5, rfl, rfl⟩, rfl, ?_⟩
  show 0 < 2 * (((lm.getD 5 (0, 0)).1 - (lm.getD 4 (0, 0)).1) / 2 + 5)
  have hd : 0 < (lm.getD 5 (0, 0)).1 - (lm.getD 4 (0, 0)).1 := by linarith
  have hd2 : 0 < ((lm.getD 5 (0, 0)).1 - (lm.getD 4 (0, 0)).1) / 2 := by positivity
  linarith

/-- Concrete 6-point landmark set: nose (10, 20), right reference x 5,
left reference x 15. -/
def lmWide : List (ℚ × ℚ) := [(0, 0), (0, 0), (10, 20), (0, 0), (5, 0), (15, 0)]

/-- Witness for C3 at the concrete landmark set lmWide. -/
theorem crop_region_spec_witness :
    (6 ≤ lmWide.length ∧ (lmWide.getD 4 (0, 0)).1 < (lmWide.getD 5 (0, 0)).1) ∧
    ((∃ half : ℚ,
        half = ((lmWide.getD 5 (0, 0)).1 - (lmWide.getD 4 (0, 0)).1) / 2 + 5 ∧
        cropRegion lmWide =
          ⟨(lmWide.getD 2 (0, 0)).1 - half, (lmWide.getD 2 (0, 0)).2 - half,
            2 * half, 2 * half⟩) ∧
      (cropRegion lmWide).width = (cropRegion lmWide).height ∧
      0 < (cropRegion lmWide).width) :=
  ⟨⟨by norm_num [lmWide], by norm_num [lmWide, List.getD_cons_succ, List.getD_cons_zero]⟩,
    crop_region_spec lmWide (by norm_num [lmWide])
      (by norm_num [lmWide, List.getD_cons_succ, List.getD_cons_zero])⟩

/-- One detected face as returned by blazeface estimateFaces: only the
landmark list is read by detectEmotion. -/
structure Face where
  landmarks : List (ℚ × ℚ)

/-- Behaviour of the external collaborators during one detectEmotion call:
the face list returned by estimateFaces, the raw probability vector
returned by the emotion model, and whether the model call throws. -/
structure Env where
  faces : List Face
  classifierOutput : List ℚ
  classifierThrows : Bool

/-- React state of the Emote component (App.tsx lines 36-48).  The two
model fields record whether the corresponding handle is non-null;
imageRef and canvasRef are rendered exactly when selectedImage is set and
are folded into it. -/
structure EmoteState where
  selectedImage : Option String
  prediction : Option String
  emotionPredictions : Option (List (String × ℚ))
  isLoading : Bool
  faceDetector : Bool
  emotionDetector : Bool

/-- Embedding of handleImageUpload (App.tsx lines 69-82): when a file is
picked and the FileReader delivers a string result, selectedImage is set
and both emotionPredictions and prediction are reset to null; otherwise
nothing changes. -/
def handleImageUpload (file : Option String) (readerResult : Option String)
    (s : EmoteState) : EmoteState :=
  match file with
  | none => s
  | some _ =>
    match readerResult with
    | none => s
    | some url =>
      { s with selectedImage := some url,
               emotionPredictions := none,
               prediction := none }

/-- Disabled condition of the Detect Emotion button (App.tsx line 174):
!selectedImage || isLoading || !models.faceDetector || !models.emotionDetector. -/
def buttonDisabled (s : EmoteState) : Bool :=
  s.selectedImage.isNone || s.isLoading || !s.faceDetector || !s.emotionDetector

/-- Embedding of detectEmotion (App.tsx lines 84-154).  The first component
is the component state after the call; the second is true exactly when
ctx.getImageData was invoked on the derived crop region (pixel extraction
attempted).  The guard on line 85 returns early before the try block.  In
the face branch no geometry validation occurs: the region is passed to
getImageData as-is.  Per the canvas specification getImageData throws
precisely when the requested width or height is zero (negative sizes are
normalized, not errors); that throw, or a throwing model call, lands in
the catch block, which only sets prediction to "Error detecting faces";
the finally block resets isLoading in every path inside the try. -/
def detectEmotion (env : Env) (s : EmoteState) : EmoteState × Bool :=
  if s.selectedImage = none ∨ s.faceDetector = false ∨ s.emotionDetector = false then
    (s, false)
  else
    match env.faces with
    | [] =>
      ({ s with prediction := some "No faces detected",
                emotionPredictions := none,
                isLoading := false }, false)
    | face :: _ =>
      if (cropRegion face.landmarks).width = 0 ∨ env.classifierThrows = true then
        ({ s with prediction := some "Error detecting faces",
                  isLoading := false }, true)
      else
        ({ s with emotionPredictions := some (emotionResults env.classifierOutput),
                  prediction := some "Face detected and emotion analyzed!",
                  isLoading := false }, true)

/-- Ready idle component state: an image is selected, both models are
loaded, nothing is in flight and no result is displayed. -/
def readyState : EmoteState := ⟨some "img", none, none, false, true, true⟩

/-- C9: when the file read completes successfully, handleImageUpload clears
both the emotion predictions and the status string while storing the new
image, so stale results never accompany a newly selected image. -/
theorem upload_clears_results (f url : String) (s : EmoteState) :
    (handleImageUpload (some f) (some url) s).emotionPredictions = none ∧
    (handleImageUpload (some f) (some url) s).prediction = none ∧
    (handleImageUpload (some f) (some url) s).selectedImage = some url := by
  simp [handleImageUpload]

/-- C6: with an image selected and both models ready, a request for which
the localizer returns zero faces terminates with status "No faces
detected" and no ranked result. -/
theorem no_faces_terminal (env : Env) (s : EmoteState)
    (himg : s.selectedImage ≠ none) (hfd : s.faceDetector = true)
    (hed : s.emotionDetector = true) (hfaces : env.faces = []) :
    (detectEmotion env s).1.prediction = some "No faces detected" ∧
    (detectEmotion env s).1.emotionPredictions = none ∧
    (detectEmotion env s).1.isLoading = false := by
  simp [detectEmotion, himg, hfd, hed, hfaces]

/-- Witness for C6: a zero-face environment against the ready state. -/
theorem no_faces_terminal_witness :
    ((readyState.selectedImage ≠ none ∧ readyState.faceDetector = true ∧
      readyState.emotionDetector = true ∧ (Env.mk [] [] false).faces = []) ∧
     ((detectEmotion (Env.mk [] [] false) readyState).1.prediction =
        some "No faces detected" ∧
      (detectEmotion (Env.mk [] [] false) readyState).1.emotionPredictions = none ∧
      (detectEmotion (Env.mk [] [] false) readyState).1.isLoading = false)) :=
  ⟨⟨by simp [readyState], rfl, rfl, rfl⟩,
    no_faces_terminal (Env.mk [] [] false) readyState (by simp [readyState]) rfl rfl rfl⟩

/-- C10: when the request reaches the catch block — extraction throwing on
a zero-size region, or the classifier call throwing — only the status
string changes, to "Error detecting faces": the previous emotion
predictions and the selected image are untouched. -/
theorem error_path_keeps_predictions (env : Env) (s : EmoteState)
    (face : Face) (rest : List Face)
    (himg : s.selectedImage ≠ none) (hfd : s.faceDetector = true)
    (hed : s.emotionDetector = true) (hfaces : env.faces = face :: rest)
    (hthrow : (cropRegion face.landmarks).width = 0 ∨ env.classifierThrows = true) :
    (detectEmotion env s).1.prediction = some "Error detecting faces" ∧
    (detectEmotion env s).1.emotionPredictions = s.emotionPredictions ∧
    (detectEmotion env s).1.selectedImage = s.selectedImage := by
  have hguard : ¬ (s.selectedImage = none ∨ s.faceDetector = false ∨
      s.emotionDetector = false) := by
    simp [himg, hfd, hed]
  simp [detectEmotion, if_neg hguard, hfaces, if_pos hthrow]

/-- Prior state for the C10 witness: a previous request already displayed a
ranked result. -/
def afterSuccessState : EmoteState :=
  ⟨some "img", some "Face detected and emotion analyzed!", some [("Happy", 95)],
    false, true, true⟩

/-- Environment for the C10 witness: one face, model call throws. -/
def throwingEnv : Env := ⟨[⟨lmWide⟩], [], true⟩

/-- Witness for C10: a throwing classifier call leaves the previously
displayed predictions in place. -/
theorem error_path_keeps_predictions_witness :
    ((afterSuccessState.selectedImage ≠ none ∧
      afterSuccessState.faceDetector = true ∧
      afterSuccessState.emotionDetector = true ∧
      throwingEnv.faces = Face.mk lmWide :: [] ∧
      ((cropRegion (Face.mk lmWide).landmarks).width = 0 ∨
        throwingEnv.classifierThrows = true)) ∧
     ((detectEmotion throwingEnv afterSuccessState).1.prediction =
        some "Error detecting faces" ∧
      (detectEmotion throwingEnv afterSuccessState).1.emotionPredictions =
        afterSuccessState.emotionPredictions ∧
      (detectEmotion throwingEnv afterSuccessState).1.selectedImage =
        afterSuccessState.selectedImage)) :=
  ⟨⟨by simp [afterSuccessState], rfl, rfl, rfl, Or.inr rfl⟩,
    error_path_keeps_predictions throwingEnv afterSuccessState (Face.mk lmWide) []
      (by simp [afterSuccessState]) rfl rfl rfl (Or.inr rfl)⟩

/-- Degenerate landmark set with P_l.x = P_r.x = 10 (eye references
coincide): the derived half-width is still (10 - 10) / 2 + 5 = 5 > 0. -/
def lmDegenerate : List (ℚ × ℚ) :=
  [(0, 0), (0, 0), (100, 100), (0, 0), (10, 0), (10, 0)]

/-- Environment returning one face with the degenerate landmarks and a
well-formed 7-entry probability vector. -/
def degenerateEnv : Env :=
  ⟨[⟨lmDegenerate⟩], [95/100, 1/100, 1/100, 1/100, 1/100, 0, 1/100], false⟩

/-- The claim that a landmark set with P_l.x ≤ P_r.x is rejected as a
detection failure without attempting pixel extraction is false: with
P_l.x = P_r.x = 10 the pipeline attempts extraction and completes with the
normal success status. -/
theorem geometry_not_validated_cex :
    (lmDegenerate.getD 5 (0, 0)).1 ≤ (lmDegenerate.getD 4 (0, 0)).1 ∧
    (detectEmotion degenerateEnv readyState).2 = true ∧
    (detectEmotion degenerateEnv readyState).1.prediction =
      some "Face detected and emotion analyzed!" := by
  refine ⟨by norm_num [lmDegenerate, List.getD_cons_succ, List.getD_cons_zero], ?_, ?_⟩ <;>
    norm_num [detectEmotion, degenerateEnv, readyState, cropRegion, lmDegenerate,
      Option.some_ne_none, List.getD_cons_succ, List.getD_cons_zero]

/-- C4 amended: detectEmotion performs no geometry validation at all:
whenever the guard passes and at least one face is returned, pixel
extraction is attempted with the derived region, for degenerate landmark
sets (P_l.x ≤ P_r.x) just like for well-formed ones; the region is never
clamped and no InvalidGeometry failure exists. -/
theorem extraction_always_attempted (env : Env) (s : EmoteState)
    (face : Face) (rest : List Face)
    (himg : s.selectedImage ≠ none) (hfd : s.faceDetector = true)
    (hed : s.emotionDetector = true) (hfaces : env.faces = face :: rest) :
    (detectEmotion env s).2 = true := by
  have hguard : ¬ (s.selectedImage = none ∨ s.faceDetector = false ∨
      s.emotionDetector = false) := by
    simp [himg, hfd, hed]
  simp only [detectEmotion, if_neg hguard, hfaces]
  by_cases h : (cropRegion face.landmarks).width = 0 ∨ env.classifierThrows = true
  · rw [if_pos h]
  · rw [if_neg h]

/-- Witness for the amended C4 at the degenerate environment. -/
theorem extraction_always_attempted_witness :
    (readyState.selectedImage ≠ none ∧ readyState.faceDetector = true ∧
      readyState.emotionDetector = true ∧
      degenerateEnv.faces = Face.mk lmDegenerate :: []) ∧
    (detectEmotion degenerateEnv readyState).2 = true :=
  ⟨⟨by simp [readyState], rfl, rfl, rfl⟩,
    extraction_always_attempted degenerateEnv readyState (Face.mk lmDegenerate) []
      (by simp [readyState]) rfl rfl rfl⟩

/-- Environment returning one well-formed face and a raw probability
vector of length 6 instead of 7. -/
def shortVectorEnv : Env := ⟨[⟨lmWide⟩], [1/2, 1/2, 0, 0, 0, 0], false⟩

/-- The claim that a raw vector of length other than 7 signals
ClassifierOutputShapeError is false: a length-6 vector is mapped entrywise
and reported with the normal success status. -/
theorem no_shape_check_cex :
    shortVectorEnv.classifierOutput.length ≠ 7 ∧
    (detectEmotion shortVectorEnv readyState).1.prediction =
      some "Face detected and emotion analyzed!" ∧
    (detectEmotion shortVectorEnv readyState).1.emotionPredictions =
      some [("Angry", 50), ("Disgust", 50), ("Fear", 0), ("Happy", 0),
            ("Neutral", 0), ("Sad", 0)] := by
  refine ⟨by norm_num [shortVectorEnv], ?_, ?_⟩ <;>
    norm_num [detectEmotion, shortVectorEnv, readyState, cropRegion, lmWide,
      emotionResults, emotions, List.range_succ, Option.some_ne_none,
      List.getD_cons_succ, List.getD_cons_zero]

/-- C5 amended: the code performs no shape check on the raw classifier
vector: emotionResults maps it entrywise, preserving its length exactly
(no truncation and no padding, whatever the length; indices past the
7-entry label list are labelled undefined), and the request is reported as
a success. -/
theorem emotion_results_length (raw : List ℚ) :
    (emotionResults raw).length = raw.length := by
  simp [emotionResults]

/-- Component state with a request in flight: isLoading is true, an image
is selected and both models are ready. -/
def busyState : EmoteState := ⟨some "img", none, none, true, true, true⟩

/-- The claim that a request issued while one is in flight is rejected
with a PipelineBusy error is false: detectEmotion never checks isLoading,
so a direct second invocation runs to its normal terminal state. -/
theorem busy_not_rejected_cex :
    busyState.isLoading = true ∧
    (detectEmotion (Env.mk [] [] false) busyState).1.prediction =
      some "No faces detected" ∧
    (detectEmotion (Env.mk [] [] false) busyState).1.prediction ≠
      some "PipelineBusy" := by
  refine ⟨rfl, ?_, ?_⟩ <;> simp [detectEmotion, busyState]

/-- C7 amended: reentrancy is prevented by the UI, not the pipeline: while
a request is in flight (isLoading) the Detect Emotion button is disabled,
so no second request can be issued from the interface; detectEmotion
itself has no in-flight check and no PipelineBusy error exists. -/
theorem busy_button_disabled (s : EmoteState) (h : s.isLoading = true) :
    buttonDisabled s = true := by
  simp [buttonDisabled, h]

/-- Witness for the amended C7 at the busy state. -/
theorem busy_button_disabled_witness :
    busyState.isLoading = true ∧ buttonDisabled busyState = true :=
  ⟨rfl, busy_button_disabled busyState rfl⟩

/-- RGB buffer produced by tf.browser.fromPixels from the extracted
ImageData (default 3 channels, alpha dropped): pix i j c is the integer
pixel value at row i, column j, channel c, as a rational. -/
structure Image where
  height : ℕ
  width : ℕ
  pix : ℕ → ℕ → Fin 3 → ℚ

/-- Embedding of resizeBilinear([H, W]) with the tf.js defaults
alignCorners = false and halfPixelCenters = false: the source coordinate
of output row i is i * height / H; the two sample rows are its floor and
floor + 1 clamped to height - 1, blended by the fractional part, and the
columns likewise. -/
def resizeBilinear (img : Image) (H W : ℕ) : Image :=
  ⟨H, W, fun i j c =>
    let y : ℚ := i * img.height / H
    let x : ℚ := j * img.width / W
    let y0 : ℕ := (Int.floor y).toNat
    let y1 : ℕ := min (y0 + 1) (img.height - 1)
    let dy : ℚ := y - y0
    let x0 : ℕ := (Int.floor x).toNat
    let x1 : ℕ := min (x0 + 1) (img.width - 1)
    let dx : ℚ := x - x0
    let top := (1 - dx) * img.pix y0 x0 c + dx * img.pix y0 x1 c
    let bottom := (1 - dx) * img.pix y1 x0 c + dx * img.pix y1 x1 c
    (1 - dy) * top + dy * bottom⟩

/-- Embedding of mean(2): unweighted arithmetic mean over the channel
axis, not a perceptual luminance formula. -/
def meanChannels (img : Image) : ℕ → ℕ → ℚ :=
  fun i j => (img.pix i j 0 + img.pix i j 1 + img.pix i j 2) / 3

/-- Rank-4 tensor with explicit dimensions. -/
structure Tensor4 where
  d0 : ℕ
  d1 : ℕ
  d2 : ℕ
  d3 : ℕ
  val : ℕ → ℕ → ℕ → ℕ → ℚ

/-- Embedding of the normalization chain (App.tsx lines 120-125):
fromPixels(faceData).resizeBilinear([48, 48]).mean(2).toFloat()
.expandDims(0).expandDims(-1).  toFloat is an int32-to-float32 cast and is
the identity on the rational pixel values: in particular no division by
255 or other range rescaling occurs anywhere in the chain. -/
def normalize (img : Image) : Tensor4 :=
  let r := resizeBilinear img 48 48
  ⟨1, 48, 48, 1, fun _ i j _ => meanChannels r i j⟩

/-- C8: for every non-empty square crop, the normalizer output has shape
exactly [1, 48, 48, 1] whatever the crop size, each value is the
unweighted mean of the three channels of the bilinearly resized crop, and
no rescaling of the value range is applied: a constant crop of value v
normalizes to the constant v, not v / 255. -/
theorem normalize_spec (img : Image) (hpos : 0 < img.height)
    (hsq : img.width = img.height) :
    ((normalize img).d0 = 1 ∧ (normalize img).d1 = 48 ∧
      (normalize img).d2 = 48 ∧ (normalize img).d3 = 1) ∧
    (∀ b i j c, (normalize img).val b i j c =
      ((resizeBilinear img 48 48).pix i j 0 + (resizeBilinear img 48 48).pix i j 1 +
        (resizeBilinear img 48 48).pix i j 2) / 3) ∧
    (∀ v : ℚ, (∀ i j c, img.pix i j c = v) →
      ∀ i j, (normalize img).val 0 i j 0 = v) := by
  refine ⟨⟨rfl, rfl, rfl, rfl⟩, fun b i j c => rfl, ?_⟩
  intro v hv i j
  simp only [normalize, meanChannels, resizeBilinear, hv]
  ring

/-- Constant one-pixel crop of value 7. -/
def unitImage : Image := ⟨1, 1, fun _ _ _ => 7⟩

/-- Witness for C8 at the constant one-pixel crop. -/
theorem normalize_spec_witness :
    (0 < unitImage.height ∧ unitImage.width = unitImage.height) ∧
    (((normalize unitImage).d0 = 1 ∧ (normalize unitImage).d1 = 48 ∧
        (normalize unitImage).d2 = 48 ∧ (normalize unitImage).d3 = 1) ∧
      (∀ b i j c, (normalize unitImage).val b i j c =
        ((resizeBilinear unitImage 48 48).pix i j 0 +
          (resizeBilinear unitImage 48 48).pix i j 1 +
          (resizeBilinear unitImage 48 48).pix i j 2) / 3) ∧
      (∀ v : ℚ, (∀ i j c, unitImage.pix i j c = v) →
        ∀ i j, (normalize unitImage).val 0 i j 0 = v)) :=
  ⟨⟨by norm_num [unitImage], rfl⟩,
    normalize_spec unitImage (by norm_num [unitImage]) rfl⟩

end Emote
